import Mathlib

/-!
# SFML game template: the application lifecycle of `Main.cpp`

A shallow embedding of `src/Main.cpp`.  The process-wide globals of the
program (`_texture`, `_font`, `_soundBuffer`, `_music`, `_sound`, `_sprite`,
`_text`, `_deltaTime`), the window owned by `main` and the two output streams
are bundled in one record, `Game`, which every function of the program takes
and returns.

What the program receives from outside is passed in explicitly:

* the Boolean each `loadFromFile` / `openFromFile` call returns (`LoadResults`);
* the events that the successive `pollEvent` calls of one loop iteration
  return before `pollEvent` returns an empty optional, and the duration
  `_deltaClock.restart()` returns in that iteration (`Tick`).
-/

namespace SFMLGame

/-! ## Library values used by the program -/

/-- The key codes `Keyboard::Key` that the program distinguishes, and all the
others. -/
inductive Key where
  | escape
  | space
  | other (code : Nat)
  deriving DecidableEq, Repr

/-- The payload of `Event::KeyPressed`. -/
structure KeyPressed where
  code : Key
  scancode : Nat
  alt : Bool
  control : Bool
  shift : Bool
  system : Bool
  deriving DecidableEq, Repr

/-- The payload of an `Event`: the two subtypes the program asks for
(`Event::Closed`, `Event::KeyPressed`) and every other subtype, told apart by
a number. -/
inductive Event where
  | closed
  | keyPressed (key : KeyPressed)
  | other (kind : Nat)
  deriving DecidableEq, Repr

/-- The test `event->is<Event::Closed>()`. -/
def Event.isClosed : Event → Bool
  | .closed => true
  | _ => false

/-- The call `event->getIf<Event::KeyPressed>()`: the payload of a key press,
nothing for any other subtype. -/
def Event.getIfKeyPressed : Event → Option KeyPressed
  | .keyPressed k => some k
  | _ => none

/-- An RGBA colour. -/
structure Color where
  r : Nat
  g : Nat
  b : Nat
  a : Nat
  deriving DecidableEq, Repr

/-- The constant `Color::Black`. -/
def Color.Black : Color := ⟨0, 0, 0, 255⟩

/-- The constant `Color::White`. -/
def Color.White : Color := ⟨255, 255, 255, 255⟩

/-- A `Vector2f`; the only coordinates the program uses are whole numbers. -/
structure Vector2f where
  x : Int
  y : Int
  deriving DecidableEq, Repr

/-- An asset slot (`Texture`, `Font`, `SoundBuffer`, `Music`): the file its
content was read from, or nothing while it is empty. -/
structure Asset where
  file : Option String
  deriving DecidableEq, Repr

/-- The empty asset, the state of a default-constructed slot. -/
def Asset.empty : Asset := ⟨none⟩

/-- The calls `loadFromFile(path)` and `openFromFile(path)`: `ok` is what the
library returns.  On success the slot holds the content of `path`, on failure
it is left as it was. -/
def Asset.loadFromFile (ok : Bool) (path : String) (a : Asset) : Bool × Asset :=
  if ok then (true, ⟨some path⟩) else (false, a)

/-- A `Sprite`: the texture it refers to and its position. -/
structure Sprite where
  texture : Asset
  position : Vector2f
  deriving DecidableEq, Repr

/-- The constructor `Sprite(texture)`: positioned at the origin. -/
def Sprite.mk1 (texture : Asset) : Sprite := ⟨texture, ⟨0, 0⟩⟩

/-- The call `setPosition`. -/
def Sprite.setPosition (s : Sprite) (p : Vector2f) : Sprite := { s with position := p }

/-- A `Text`: the font it refers to, its string, character size and fill
colour. -/
structure Text where
  font : Asset
  string : String
  characterSize : Nat
  fillColor : Color
  deriving DecidableEq, Repr

/-- The constructor `Text(font)`: empty string, size 30, white. -/
def Text.mk1 (font : Asset) : Text := ⟨font, "", 30, Color.White⟩

/-- The call `setString`. -/
def Text.setString (t : Text) (s : String) : Text := { t with string := s }

/-- The call `setCharacterSize`. -/
def Text.setCharacterSize (t : Text) (n : Nat) : Text := { t with characterSize := n }

/-- The call `setFillColor`. -/
def Text.setFillColor (t : Text) (c : Color) : Text := { t with fillColor := c }

/-- A rendering operation issued on the window. -/
inductive WindowOp where
  | clear (c : Color)
  | drawSprite (s : Sprite)
  | drawText (t : Text)
  | display
  deriving DecidableEq, Repr

/-- The `RenderWindow`: whether it is open, how it was created, and the
rendering operations issued on it so far, oldest first. -/
structure RenderWindow where
  isOpen : Bool
  width : Nat
  height : Nat
  title : String
  framerateLimit : Nat
  ops : List WindowOp
  deriving DecidableEq, Repr

/-- The constructor `RenderWindow(VideoMode({w, h}), title)`: an open window
without a frame-rate limit. -/
def RenderWindow.create (w h : Nat) (title : String) : RenderWindow :=
  ⟨true, w, h, title, 0, []⟩

/-- The call `setFramerateLimit`. -/
def RenderWindow.setFramerateLimit (w : RenderWindow) (n : Nat) : RenderWindow :=
  { w with framerateLimit := n }

/-- The call `close`: afterwards `isOpen` is false. -/
def RenderWindow.close (w : RenderWindow) : RenderWindow := { w with isOpen := false }

/-- The call `clear(c)`. -/
def RenderWindow.clear (w : RenderWindow) (c : Color) : RenderWindow :=
  { w with ops := w.ops ++ [WindowOp.clear c] }

/-- The call `draw(sprite)`. -/
def RenderWindow.drawSprite (w : RenderWindow) (s : Sprite) : RenderWindow :=
  { w with ops := w.ops ++ [WindowOp.drawSprite s] }

/-- The call `draw(text)`. -/
def RenderWindow.drawText (w : RenderWindow) (t : Text) : RenderWindow :=
  { w with ops := w.ops ++ [WindowOp.drawText t] }

/-- The call `display`. -/
def RenderWindow.display (w : RenderWindow) : RenderWindow :=
  { w with ops := w.ops ++ [WindowOp.display] }

/-! ## The state of the program -/

/-- A call made by `main`, in the order of `Main.cpp` lines 117 to 135.
`pollEvent r` is a call of `_window.pollEvent()` that returned `r`; `close` is
the call `_window.close()` of line 125. -/
inductive Call where
  | Initialize
  | LoadContent
  | pollEvent (result : Option Event)
  | close
  | Input (event : Option Event)
  | Update
  | Draw
  | UnloadContent
  deriving DecidableEq, Repr

/-- The globals of `Main.cpp` (`sound` is the buffer `_sound` plays, when it
holds a value), the window of `main`, the lines written to `cout` and `cerr`
(oldest first), the paths the load calls were given and the calls `main` has
made. -/
structure Game where
  window : RenderWindow
  texture : Asset
  font : Asset
  soundBuffer : Asset
  music : Asset
  sound : Option Asset
  sprite : Option Sprite
  text : Option Text
  deltaTime : Nat
  cout : List String
  cerr : List String
  loads : List String
  calls : List Call
  deriving DecidableEq, Repr

/-- The state when `main` has constructed its window (lines 114 and 115):
every global default-constructed, nothing written. -/
def Game.start : Game :=
  { window := (RenderWindow.create 1080 720 "SFML works!").setFramerateLimit 60
    texture := Asset.empty
    font := Asset.empty
    soundBuffer := Asset.empty
    music := Asset.empty
    sound := none
    sprite := none
    text := none
    deltaTime := 0
    cout := []
    cerr := []
    loads := []
    calls := [] }

/-- What each of the load calls of `LoadContent` returns. -/
structure LoadResults where
  texture : Bool
  font : Bool
  sound : Bool
  music : Bool
  deriving DecidableEq, Repr

/-- The number of load calls that fail. -/
def LoadResults.failures (o : LoadResults) : Nat :=
  (if o.texture then 0 else 1) + (if o.font then 0 else 1) +
  (if o.sound then 0 else 1) + (if o.music then 0 else 1)

/-- What one loop iteration receives: the events the `pollEvent` calls return
before the empty one, and the duration `_deltaClock.restart()` returns. -/
structure Tick where
  events : List Event
  elapsed : Nat
  deriving DecidableEq, Repr

/-! ## The functions of `Main.cpp` -/

/-- `Initialize` (lines 21 to 28). -/
def Initialize (g : Game) : Game :=
  { g with cout := g.cout ++ ["Game initialized!"] }

/-- `LoadContent` (lines 30 to 58): four load calls, each followed by a line
on `cerr` when it returned false; then the sprite and the text are emplaced
and set up, and a line goes to `cout`. -/
def LoadContent (o : LoadResults) (g : Game) : Game :=
  let r1 := g.texture.loadFromFile o.texture "assets/Laser_Cannon.png"
  let g := { g with texture := r1.2, loads := g.loads ++ ["assets/Laser_Cannon.png"] }
  let g := if !r1.1 then { g with cerr := g.cerr ++ ["Failed to load texture!"] } else g
  let r2 := g.font.loadFromFile o.font "assets/arial.ttf"
  let g := { g with font := r2.2, loads := g.loads ++ ["assets/arial.ttf"] }
  let g := if !r2.1 then { g with cerr := g.cerr ++ ["Failed to load font!"] } else g
  let r3 := g.soundBuffer.loadFromFile o.sound "assets/laser_sound.wav"
  let g := { g with soundBuffer := r3.2, loads := g.loads ++ ["assets/laser_sound.wav"] }
  let g := if !r3.1 then { g with cerr := g.cerr ++ ["Failed to load sound!"] } else g
  let r4 := g.music.loadFromFile o.music "assets/background_music.ogg"
  let g := { g with music := r4.2, loads := g.loads ++ ["assets/background_music.ogg"] }
  let g := if !r4.1 then { g with cerr := g.cerr ++ ["Failed to load music!"] } else g
  let g := { g with sprite := some ((Sprite.mk1 g.texture).setPosition ⟨100, 100⟩) }
  let g := { g with text := some ((((Text.mk1 g.font).setString "Hello, SFML!").setCharacterSize 24).setFillColor
    Color.White) }
  { g with cout := g.cout ++ ["Game content loaded!"] }

/-- `Update` (lines 60 to 67): `elapsed` is what `_deltaClock.restart()`
returns. -/
def Update (elapsed : Nat) (g : Game) : Game :=
  { g with deltaTime := elapsed }

/-- `Draw` (lines 69 to 85). -/
def Draw (g : Game) : Game :=
  let w := g.window.clear Color.Black
  let w := match g.sprite with
    | some s => w.drawSprite s
    | none => w
  let w := match g.text with
    | some t => w.drawText t
    | none => w
  { g with window := w.display }

/-- `Input` (lines 87 to 101).  The argument is the optional the pointer
`event` refers to.  Line 93 applies `->` to it without a test, which is
undefined for an empty optional: that case has no result here (`none`). -/
def Input (event : Option Event) (g : Game) : Option Game :=
  match event with
  | none => none
  | some e =>
    match e.getIfKeyPressed with
    | some keyPressed =>
      let g := if keyPressed.code = Key.escape then { g with window := g.window.close } else g
      let g := if keyPressed.code = Key.space then { g with cout := g.cout ++ ["Space key pressed!"] }
        else g
      some g
    | none => some g

/-- `UnloadContent` (lines 103 to 110). -/
def UnloadContent (g : Game) : Game :=
  { g with cout := g.cout ++ ["Game content unloaded!"] }

/-- The inner loop of `main` (lines 122 to 129), given the events `pollEvent`
returns in this iteration: each is tested for `Event::Closed` (then the window
is closed) and then handed to `Input`; the loop ends when `pollEvent` returns
the empty optional. -/
def eventLoop : List Event → Game → Option Game
  | [], g => some { g with calls := g.calls ++ [Call.pollEvent none] }
  | e :: rest, g =>
    let g := { g with calls := g.calls ++ [Call.pollEvent (some e)] }
    let g := if e.isClosed then { g with window := g.window.close, calls := g.calls ++ [Call.close] } else g
    match Input (some e) { g with calls := g.calls ++ [Call.Input (some e)] } with
    | none => none
    | some g => eventLoop rest g

/-- One iteration of the outer loop of `main` (lines 122 to 132). -/
def frame (t : Tick) (g : Game) : Option Game :=
  match eventLoop t.events g with
  | none => none
  | some g =>
    let g := Update t.elapsed { g with calls := g.calls ++ [Call.Update] }
    some (Draw { g with calls := g.calls ++ [Call.Draw] })

/-- The outer loop of `main` (lines 120 to 133) over the ticks it is given.
It ends when the window is closed.  There is no result when the ticks run out
while the window is open (the program is still running). -/
def runLoop : List Tick → Game → Option Game
  | [], g => if g.window.isOpen then none else some g
  | t :: ts, g =>
    if g.window.isOpen then
      match frame t g with
      | none => none
      | some g => runLoop ts g
    else some g

/-- `main` (lines 112 to 137): the exit code and the final state. -/
def main (o : LoadResults) (stream : List Tick) : Option (Int × Game) :=
  let g := Game.start
  let g := Initialize { g with calls := g.calls ++ [Call.Initialize] }
  let g := LoadContent o { g with calls := g.calls ++ [Call.LoadContent] }
  match runLoop stream g with
  | none => none
  | some g =>
    let g := UnloadContent { g with calls := g.calls ++ [Call.UnloadContent] }
    some (0, g)

/-! ## Vocabulary of the statements -/

/-- Whether handling the event closes the window: a close event, or a key
press whose code is Escape. -/
def Event.closes : Event → Bool
  | .closed => true
  | .keyPressed k => decide (k.code = Key.escape)
  | .other _ => false

/-- The calls `main` makes for one polled event: the poll that returned it,
the call `_window.close()` when it is a close event, and the call of
`Input` on it. -/
def callsFor (e : Event) : List Call :=
  [Call.pollEvent (some e)] ++ (if e.isClosed then [Call.close] else []) ++ [Call.Input (some e)]

/-- The calls `main` makes in one loop iteration that polls the events of
`t`: those for each event in turn, the poll that returns the empty optional,
`Update`, `Draw`. -/
def frameCalls (t : Tick) : List Call :=
  t.events.flatMap callsFor ++ [Call.pollEvent none, Call.Update, Call.Draw]

/-- Whether some event of the tick closes the window. -/
def Tick.closes (t : Tick) : Bool := t.events.any Event.closes

/-! ## Lemmas on the loop -/

theorem Input_some_eq (e : Event) (g : Game) :
    ∃ g', Input (some e) g = some g' ∧ g'.calls = g.calls ∧
      g'.window.isOpen = (g.window.isOpen && !(!e.isClosed && e.closes)) := by
  cases e with
  | closed => exact ⟨g, rfl, rfl, by simp [Event.isClosed]⟩
  | other n => exact ⟨g, rfl, rfl, by simp [Event.isClosed, Event.closes]⟩
  | keyPressed k =>
    rcases k with ⟨c, sc, a1, a2, a3, a4⟩
    cases c <;>
      simp [Input, Event.getIfKeyPressed, Event.isClosed, Event.closes, RenderWindow.close]

theorem eventLoop_eq (evs : List Event) :
    ∀ g : Game, ∃ g', eventLoop evs g = some g' ∧
      g'.calls = g.calls ++ evs.flatMap callsFor ++ [Call.pollEvent none] ∧
      g'.window.isOpen = (g.window.isOpen && !evs.any Event.closes) := by
  induction evs with
  | nil => intro g; exact ⟨_, rfl, by simp, by simp⟩
  | cons e rest ih =>
    intro g
    cases hc : e.isClosed
    · obtain ⟨g1, h1, h2, h3⟩ :=
        Input_some_eq e { g with calls := g.calls ++ [Call.pollEvent (some e)] ++ [Call.Input (some e)] }
      obtain ⟨g2, k1, k2, k3⟩ := ih g1
      refine ⟨g2, ?_, ?_, ?_⟩
      · simp only [eventLoop, hc, Bool.false_eq_true, if_false]
        simp only [List.append_assoc] at h1 ⊢
        rw [h1]; exact k1
      · rw [k2, h2]; simp [callsFor, hc]
      · rw [k3, h3]; simp [hc, Bool.and_assoc]
    · obtain ⟨g1, h1, h2, h3⟩ :=
        Input_some_eq e { g with window := g.window.close,
                                 calls := g.calls ++ [Call.pollEvent (some e)] ++ [Call.close]
                                   ++ [Call.Input (some e)] }
      obtain ⟨g2, k1, k2, k3⟩ := ih g1
      have he : e.closes = true := by cases e <;> simp_all [Event.isClosed, Event.closes]
      refine ⟨g2, ?_, ?_, ?_⟩
      · simp only [eventLoop, hc, if_true]
        simp only [List.append_assoc] at h1 ⊢
        rw [h1]; exact k1
      · rw [k2, h2]; simp [callsFor, hc]
      · rw [k3, h3]; simp [hc, he, RenderWindow.close]

theorem frame_eq (t : Tick) (g : Game) :
    ∃ g', frame t g = some g' ∧ g'.calls = g.calls ++ frameCalls t ∧
      g'.window.isOpen = (g.window.isOpen && !t.closes) := by
  obtain ⟨g1, h1, h2, h3⟩ := eventLoop_eq t.events g
  unfold frame
  rw [h1]
  refine ⟨_, rfl, ?_, ?_⟩
  · simp [Draw, Update, h2, frameCalls]
  · cases hs : g1.sprite <;> cases ht : g1.text <;>
      simp [Draw, Update, h3, Tick.closes, hs, ht, RenderWindow.clear, RenderWindow.drawSprite,
        RenderWindow.drawText, RenderWindow.display]

theorem callsFor_not_lifecycle (e : Event) :
    ∀ c ∈ callsFor e, c ≠ Call.Initialize ∧ c ≠ Call.LoadContent ∧ c ≠ Call.UnloadContent := by
  intro c hc
  cases h : e.isClosed <;> simp [callsFor, h] at hc <;> rcases hc with rfl | rfl | rfl <;> simp

theorem frameCalls_not_lifecycle (t : Tick) :
    ∀ c ∈ frameCalls t, c ≠ Call.Initialize ∧ c ≠ Call.LoadContent ∧ c ≠ Call.UnloadContent := by
  intro c hc
  simp only [frameCalls, List.mem_append, List.mem_flatMap] at hc
  rcases hc with ⟨e, _, he⟩ | hc
  · exact callsFor_not_lifecycle e c he
  · simp at hc
    rcases hc with rfl | rfl | rfl <;> simp

theorem runLoop_eq (stream : List Tick) :
    ∀ g : Game, g.window.isOpen = true → stream.any Tick.closes = true →
      ∃ k g', 1 ≤ k ∧ k ≤ stream.length ∧ runLoop stream g = some g' ∧
        g'.calls = g.calls ++ (stream.take k).flatMap frameCalls ∧
        g'.window.isOpen = false ∧ k = (stream.takeWhile (fun t => !t.closes)).length + 1 := by
  induction stream with
  | nil => intro g _ h; simp at h
  | cons t ts ih =>
    intro g hg h
    obtain ⟨g1, h1, h2, h3⟩ := frame_eq t g
    cases ht : t.closes
    · have hts : ts.any Tick.closes = true := by simpa [ht] using h
      have hg1 : g1.window.isOpen = true := by simp [h3, hg, ht]
      obtain ⟨k, g2, k1, k2, k3, k4, k5, k6⟩ := ih g1 hg1 hts
      refine ⟨k + 1, g2, by omega, by simp; omega, ?_, ?_, k5, ?_⟩
      · simp only [runLoop, hg, if_true, h1]; exact k3
      · rw [k4, h2]; simp
      · simp [List.takeWhile, ht, k6]
    · have hg1 : g1.window.isOpen = false := by simp [h3, ht]
      refine ⟨1, g1, le_refl 1, by simp, ?_, ?_, hg1, ?_⟩
      · simp only [runLoop, hg, if_true, h1]
        cases ts <;> simp [runLoop, hg1]
      · rw [h2]; simp
      · simp [List.takeWhile, ht]

theorem LoadContent_window_calls (o : LoadResults) (g : Game) :
    (LoadContent o g).window = g.window ∧ (LoadContent o g).calls = g.calls := by
  rcases o with ⟨a, b, c, d⟩
  cases a <;> cases b <;> cases c <;> cases d <;> simp [LoadContent, Asset.loadFromFile]

/-! ## Asset loading -/

/-- C1 (as written, refuted): with the texture and the font load both failing
at program start, `LoadContent` still leaves the sprite and the text present,
built on the empty texture and the empty font. -/
theorem LoadContent_failed_loads_still_emplace :
    (LoadResults.mk false false true true).texture = false ∧
    (LoadResults.mk false false true true).font = false ∧
    (LoadContent (LoadResults.mk false false true true) Game.start).sprite
      = some ⟨Asset.empty, ⟨100, 100⟩⟩ ∧
    (LoadContent (LoadResults.mk false false true true) Game.start).text
      = some ⟨Asset.empty, "Hello, SFML!", 24, Color.White⟩ := by
  refine ⟨rfl, rfl, ?_, ?_⟩ <;> rfl

/-- C1 (amended): for every combination of load results and every prior
state, after `LoadContent` the sprite slot and the text slot are both present;
the sprite refers to the texture slot and the text to the font slot as the
load calls left them, which is the prior content when the load failed. -/
theorem LoadContent_drawables_present (o : LoadResults) (g : Game) :
    (LoadContent o g).sprite.isSome = true ∧
    (LoadContent o g).text.isSome = true ∧
    (LoadContent o g).sprite.map Sprite.texture
      = some (if o.texture then ⟨some "assets/Laser_Cannon.png"⟩ else g.texture) ∧
    (LoadContent o g).text.map Text.font
      = some (if o.font then ⟨some "assets/arial.ttf"⟩ else g.font) := by
  rcases o with ⟨a, b, c, d⟩
  cases a <;> cases b <;> cases c <;> cases d <;>
    simp [LoadContent, Asset.loadFromFile, Sprite.mk1, Sprite.setPosition, Text.mk1,
      Text.setString, Text.setCharacterSize, Text.setFillColor]

/-- C2: whenever the texture load succeeds the sprite is present after
`LoadContent` at position (100, 100), and whenever the font load succeeds the
text is present with the string "Hello, SFML!", character size 24 and fill
colour white. -/
theorem LoadContent_sprite_and_text_setup (o : LoadResults) (g : Game) :
    (o.texture = true →
      ∃ s, (LoadContent o g).sprite = some s ∧ s.position = ⟨100, 100⟩) ∧
    (o.font = true →
      ∃ t, (LoadContent o g).text = some t ∧ t.string = "Hello, SFML!" ∧
        t.characterSize = 24 ∧ t.fillColor = Color.White) := by
  constructor
  · intro _
    exact ⟨_, rfl, rfl⟩
  · intro _
    exact ⟨_, rfl, rfl, rfl, rfl⟩

/-- C2 at the start state with every load succeeding. -/
theorem LoadContent_sprite_and_text_setup_witness :
    (∃ s, (LoadContent (LoadResults.mk true true true true) Game.start).sprite = some s ∧
      s.position = ⟨100, 100⟩) ∧
    (∃ t, (LoadContent (LoadResults.mk true true true true) Game.start).text = some t ∧
      t.string = "Hello, SFML!" ∧ t.characterSize = 24 ∧ t.fillColor = Color.White) :=
  ⟨(LoadContent_sprite_and_text_setup (LoadResults.mk true true true true) Game.start).1 rfl,
   (LoadContent_sprite_and_text_setup (LoadResults.mk true true true true) Game.start).2 rfl⟩

/-- C3: for every combination of load results and every prior state,
`LoadContent` runs through all four load calls in source order, writes to
`cerr` one line for each load that failed and nothing for one that succeeded
(so as many lines as failed loads), leaves each asset slot as its own load
call left it, and ends by writing its line to `cout`. -/
theorem LoadContent_logs_each_failure_once (o : LoadResults) (g : Game) :
    (LoadContent o g).loads = g.loads ++ ["assets/Laser_Cannon.png", "assets/arial.ttf",
      "assets/laser_sound.wav", "assets/background_music.ogg"] ∧
    (LoadContent o g).cerr = g.cerr ++
      ((if o.texture then [] else ["Failed to load texture!"]) ++
       (if o.font then [] else ["Failed to load font!"]) ++
       (if o.sound then [] else ["Failed to load sound!"]) ++
       (if o.music then [] else ["Failed to load music!"])) ∧
    (LoadContent o g).cerr.length = g.cerr.length + o.failures ∧
    (LoadContent o g).cout = g.cout ++ ["Game content loaded!"] ∧
    (LoadContent o g).texture
      = (if o.texture then ⟨some "assets/Laser_Cannon.png"⟩ else g.texture) ∧
    (LoadContent o g).font = (if o.font then ⟨some "assets/arial.ttf"⟩ else g.font) ∧
    (LoadContent o g).soundBuffer
      = (if o.sound then ⟨some "assets/laser_sound.wav"⟩ else g.soundBuffer) ∧
    (LoadContent o g).music
      = (if o.music then ⟨some "assets/background_music.ogg"⟩ else g.music) ∧
    (LoadContent o g).window = g.window := by
  rcases o with ⟨a, b, c, d⟩
  cases a <;> cases b <;> cases c <;> cases d <;>
    simp [LoadContent, Asset.loadFromFile, LoadResults.failures]

/-! ## Input handling -/

/-- C4: for every state, `Input` on a key press whose code is Escape returns
with the window closed and everything else as it was, so that the outer loop
of `main` runs no further iteration, whatever ticks remain. -/
theorem Input_escape_closes_window (k : KeyPressed) (g : Game) (h : k.code = Key.escape) :
    Input (some (Event.keyPressed k)) g = some { g with window := g.window.close } ∧
    ({ g with window := g.window.close } : Game).window.isOpen = false ∧
    ∀ ts, runLoop ts { g with window := g.window.close } = some { g with window := g.window.close } := by
  refine ⟨?_, rfl, ?_⟩
  · simp [Input, Event.getIfKeyPressed, h]
  · intro ts
    cases ts <;> simp [runLoop, RenderWindow.close]

/-- C4 on the start state: Escape closes the open window of `main`. -/
theorem Input_escape_closes_window_witness :
    Input (some (Event.keyPressed ⟨Key.escape, 0, false, false, false, false⟩)) Game.start
      = some { Game.start with window := Game.start.window.close } ∧
    ({ Game.start with window := Game.start.window.close } : Game).window.isOpen = false ∧
    ∀ ts, runLoop ts { Game.start with window := Game.start.window.close }
      = some { Game.start with window := Game.start.window.close } :=
  Input_escape_closes_window ⟨Key.escape, 0, false, false, false, false⟩ Game.start rfl

/-- C5: for every state, `Input` on a key press whose code is Space appends
the one line "Space key pressed!" to `cout` and changes nothing else: the
window, open or closed, is as before and nothing goes to `cerr`. -/
theorem Input_space_logs_one_line (k : KeyPressed) (g : Game) (h : k.code = Key.space) :
    ∃ g', Input (some (Event.keyPressed k)) g = some g' ∧
      g' = { g with cout := g.cout ++ ["Space key pressed!"] } ∧
      g'.cout.length = g.cout.length + 1 ∧
      g'.cerr = g.cerr ∧
      g'.window = g.window ∧
      g'.window.isOpen = g.window.isOpen := by
  refine ⟨{ g with cout := g.cout ++ ["Space key pressed!"] }, ?_, rfl, by simp, rfl, rfl, rfl⟩
  simp [Input, Event.getIfKeyPressed, h]

/-- C5 on the start state: the window of `main` stays open. -/
theorem Input_space_logs_one_line_witness :
    ∃ g', Input (some (Event.keyPressed ⟨Key.space, 0, false, false, false, false⟩)) Game.start
        = some g' ∧
      g' = { Game.start with cout := Game.start.cout ++ ["Space key pressed!"] } ∧
      g'.cout.length = Game.start.cout.length + 1 ∧
      g'.cerr = Game.start.cerr ∧
      g'.window = Game.start.window ∧
      g'.window.isOpen = Game.start.window.isOpen :=
  Input_space_logs_one_line ⟨Key.space, 0, false, false, false, false⟩ Game.start rfl

/-- C6: for every event with a payload that is not a key press, and every key
press whose code is neither Escape nor Space, `Input` returns the state it
was given: window, sprite, text, `cout` and `cerr` are all unchanged. -/
theorem Input_ignores_other_events (e : Event) (g : Game)
    (h : (∀ k, e ≠ Event.keyPressed k) ∨
         (∃ k, e = Event.keyPressed k ∧ k.code ≠ Key.escape ∧ k.code ≠ Key.space)) :
    Input (some e) g = some g := by
  rcases h with h | ⟨k, rfl, h1, h2⟩
  · cases e with
    | closed => rfl
    | other n => rfl
    | keyPressed k => exact absurd rfl (h k)
  · simp [Input, Event.getIfKeyPressed, h1, h2]

/-- C6 on a close event and on a press of another key, after loading. -/
theorem Input_ignores_other_events_witness :
    Input (some Event.closed) (LoadContent ⟨true, true, true, true⟩ Game.start)
      = some (LoadContent ⟨true, true, true, true⟩ Game.start) ∧
    Input (some (Event.keyPressed ⟨Key.other 0, 0, false, false, false, false⟩))
        (LoadContent ⟨true, true, true, true⟩ Game.start)
      = some (LoadContent ⟨true, true, true, true⟩ Game.start) :=
  ⟨Input_ignores_other_events Event.closed _ (Or.inl (fun _ hk => Event.noConfusion hk)),
   Input_ignores_other_events (Event.keyPressed ⟨Key.other 0, 0, false, false, false, false⟩) _
     (Or.inr ⟨_, rfl, by decide, by decide⟩)⟩

/-- C10 (as written, refuted): `Input` on an event that holds no payload has
no result, since line 93 dereferences the optional without a test. -/
theorem Input_empty_event_undefined : Input none Game.start = none := rfl

/-- C10 (amended): `Input` returns for every event that holds a payload, and
the poll loop of `main` always returns, having called `Input` only on events
that hold one. -/
theorem Input_defined_on_polled_events :
    (∀ (e : Event) (g : Game), (Input (some e) g).isSome = true) ∧
    (∀ (evs : List Event) (g : Game), ∃ g', eventLoop evs g = some g' ∧
      g'.calls = g.calls ++ evs.flatMap callsFor ++ [Call.pollEvent none] ∧
      Call.Input none ∉ evs.flatMap callsFor ++ [Call.pollEvent none]) := by
  constructor
  · intro e g
    obtain ⟨g', h, _⟩ := Input_some_eq e g
    simp [h]
  · intro evs g
    obtain ⟨g', h1, h2, _⟩ := eventLoop_eq evs g
    refine ⟨g', h1, h2, ?_⟩
    simp only [List.mem_append, List.mem_flatMap, not_or]
    constructor
    · rintro ⟨e, _, he⟩
      cases hc : e.isClosed <;> simp [callsFor, hc] at he
    · simp

/-! ## Rendering -/

/-- C7 (as written, refuted): after loading, with sprite and text both
present, `Draw` issues clear, the sprite, the text, display; the sprite is
drawn before the text, not after it. -/
theorem Draw_sprite_before_text :
    (Draw (LoadContent ⟨true, true, true, true⟩ Game.start)).window.ops =
      [WindowOp.clear Color.Black,
       WindowOp.drawSprite ⟨⟨some "assets/Laser_Cannon.png"⟩, ⟨100, 100⟩⟩,
       WindowOp.drawText ⟨⟨some "assets/arial.ttf"⟩, "Hello, SFML!", 24, Color.White⟩,
       WindowOp.display] ∧
    (Draw (LoadContent ⟨true, true, true, true⟩ Game.start)).window.ops ≠
      [WindowOp.clear Color.Black,
       WindowOp.drawText ⟨⟨some "assets/arial.ttf"⟩, "Hello, SFML!", 24, Color.White⟩,
       WindowOp.drawSprite ⟨⟨some "assets/Laser_Cannon.png"⟩, ⟨100, 100⟩⟩,
       WindowOp.display] := by
  have h : (Draw (LoadContent ⟨true, true, true, true⟩ Game.start)).window.ops =
      [WindowOp.clear Color.Black,
       WindowOp.drawSprite ⟨⟨some "assets/Laser_Cannon.png"⟩, ⟨100, 100⟩⟩,
       WindowOp.drawText ⟨⟨some "assets/arial.ttf"⟩, "Hello, SFML!", 24, Color.White⟩,
       WindowOp.display] := rfl
  refine ⟨h, ?_⟩
  rw [h]
  intro hne
  injection hne with _ h2
  injection h2 with h3 _
  exact WindowOp.noConfusion h3

/-- C7 (amended): for every state of the sprite and text slots, `Draw` issues
on the window, in this order: clear to black; the sprite if it is present;
the text if it is present; display.  An absent drawable gives no draw call,
and `Draw` changes nothing but the window. -/
theorem Draw_operations_in_order (g : Game) :
    (Draw g).window.ops = g.window.ops ++ [WindowOp.clear Color.Black] ++
      g.sprite.toList.map WindowOp.drawSprite ++ g.text.toList.map WindowOp.drawText ++
      [WindowOp.display] ∧
    Draw g = { g with window := { g.window with ops := (Draw g).window.ops } } := by
  cases hs : g.sprite <;> cases ht : g.text <;>
    simp [Draw, hs, ht, RenderWindow.clear, RenderWindow.drawSprite, RenderWindow.drawText,
      RenderWindow.display]

/-! ## The application loop -/

/-- C8 (as written, refuted): in an iteration whose only queued event is a
close event, `main` closes the window and then also calls `Input` on that
event. -/
theorem frame_passes_close_event_to_Input :
    (frame ⟨[Event.closed], 16⟩ Game.start).map Game.calls =
      some [Call.pollEvent (some Event.closed), Call.close, Call.Input (some Event.closed),
            Call.pollEvent none, Call.Update, Call.Draw] ∧
    (frame ⟨[Event.closed], 16⟩ Game.start).map (fun g => g.window.isOpen) = some false := by
  constructor <;> rfl

/-- C8 (amended): every loop iteration returns, and the calls it makes are,
for each queued event in order, one poll that returns it, the call of
window-close when it is a close event, and one call of `Input` on it (close
events included); then the poll that finds the queue drained, then `Update`
once, then `Draw` once. -/
theorem frame_calls_in_order (t : Tick) (g : Game) :
    ∃ g', frame t g = some g' ∧
      g'.calls = g.calls ++
        t.events.flatMap (fun e =>
          [Call.pollEvent (some e)] ++ (if e.isClosed then [Call.close] else []) ++
            [Call.Input (some e)]) ++
        [Call.pollEvent none, Call.Update, Call.Draw] ∧
      g'.deltaTime = t.elapsed := by
  obtain ⟨g1, h1, _, _⟩ := eventLoop_eq t.events g
  obtain ⟨g', h, hc, _⟩ := frame_eq t g
  refine ⟨g', h, ?_, ?_⟩
  · rw [hc, frameCalls]
    simp only [List.append_assoc]
    rfl
  · unfold frame at h
    rw [h1] at h
    injection h with h
    rw [← h]
    rfl

/-- C9: for every stream of ticks in which some event closes the window (a
close event or an Escape key press) there is a number of iterations, at
least one and independent of the load results, such that for every
combination of load results `main` returns exit code 0 with the window closed
and its calls are `Initialize`, `LoadContent`, the calls of that many loop
iterations, `UnloadContent`; none of the three lifecycle calls occurs inside
the iterations. -/
theorem main_lifecycle (stream : List Tick) (h : stream.any Tick.closes = true) :
    ∃ k, 1 ≤ k ∧ k ≤ stream.length ∧
      (∀ c ∈ (stream.take k).flatMap frameCalls,
        c ≠ Call.Initialize ∧ c ≠ Call.LoadContent ∧ c ≠ Call.UnloadContent) ∧
      ∀ o : LoadResults, ∃ g, main o stream = some (0, g) ∧
        g.calls = [Call.Initialize, Call.LoadContent] ++ (stream.take k).flatMap frameCalls ++
          [Call.UnloadContent] ∧
        g.window.isOpen = false := by
  refine ⟨(stream.takeWhile (fun t => !t.closes)).length + 1, by omega, ?_, ?_, ?_⟩
  · obtain ⟨k, _, _, k2, _, _, _, k6⟩ := runLoop_eq stream Game.start rfl h
    omega
  · intro c hc
    simp only [List.mem_flatMap] at hc
    obtain ⟨t, _, ht⟩ := hc
    exact frameCalls_not_lifecycle t c ht
  · intro o
    obtain ⟨hw, hcalls⟩ := LoadContent_window_calls o
      (Initialize { Game.start with calls := Game.start.calls ++ [Call.Initialize, Call.LoadContent] })
    obtain ⟨k, g', _, _, k3, k4, k5, k6⟩ := runLoop_eq stream
      (LoadContent o
        (Initialize { Game.start with calls := Game.start.calls ++ [Call.Initialize, Call.LoadContent] }))
      (by rw [hw]; rfl) h
    refine ⟨UnloadContent { g' with calls := g'.calls ++ [Call.UnloadContent] }, ?_, ?_, ?_⟩
    · have : main o stream = (match runLoop stream (LoadContent o
          (Initialize { Game.start with calls := Game.start.calls ++ [Call.Initialize, Call.LoadContent] })) with
        | none => none
        | some g => some (0, UnloadContent { g with calls := g.calls ++ [Call.UnloadContent] })) := by
        simp [main, Initialize, Game.start]
      rw [this, k3]
    · show g'.calls ++ [Call.UnloadContent] = _
      rw [k4, hcalls, ← k6]
      rfl
    · exact k5

/-- C9 on a stream of two ticks: a Space press, then a close event; the
texture and the sound fail to load. -/
theorem main_lifecycle_witness :
    ∃ k, 1 ≤ k ∧ k ≤ ([⟨[Event.keyPressed ⟨Key.space, 0, false, false, false, false⟩], 16⟩,
        ⟨[Event.closed], 16⟩] : List Tick).length ∧
      (∀ c ∈ (([⟨[Event.keyPressed ⟨Key.space, 0, false, false, false, false⟩], 16⟩,
          ⟨[Event.closed], 16⟩] : List Tick).take k).flatMap frameCalls,
        c ≠ Call.Initialize ∧ c ≠ Call.LoadContent ∧ c ≠ Call.UnloadContent) ∧
      ∀ o : LoadResults, ∃ g,
        main o [⟨[Event.keyPressed ⟨Key.space, 0, false, false, false, false⟩], 16⟩,
          ⟨[Event.closed], 16⟩] = some (0, g) ∧
        g.calls = [Call.Initialize, Call.LoadContent] ++
          (([⟨[Event.keyPressed ⟨Key.space, 0, false, false, false, false⟩], 16⟩,
            ⟨[Event.closed], 16⟩] : List Tick).take k).flatMap frameCalls ++
          [Call.UnloadContent] ∧
        g.window.isOpen = false :=
  main_lifecycle [⟨[Event.keyPressed ⟨Key.space, 0, false, false, false, false⟩], 16⟩,
    ⟨[Event.closed], 16⟩] (by decide)

end SFMLGame
